import Mathlib

/-!
Verification of `core/jni/android/graphics/BitmapRegionDecoder.cpp`.

The file under scrutiny is the JNI orchestration layer of Android's
`BitmapRegionDecoder`: construction of a region-decoder handle from an
encoded stream (`createBitmapRegionDecoder`), the per-call decode
orchestrator (`nativeDecodeRegion`), and the width/height queries.

Shallow embedding conventions:
* The format backend (`SkImageDecoder`, external to this file) is modelled
  as a record of its per-call mutable settings plus identifying data;
  its virtual `decodeSubset` operation is an explicit function parameter,
  and its `buildTileIndex` outcome is an explicit `Option (Int × Int)`
  parameter of construction.
* JNI side effects (writes to the Java `Options` object, the
  `AutoDecoderCancel` registration list, stream ownership) are made
  observable as fields of explicit outcome records.
* Machine `jint` values are modelled as `Int`; none of the verified
  properties depends on 32-bit wraparound.
-/

/-- Skia color types, as far as this layer distinguishes them.
`kUnknown` is `kUnknown_SkColorType` (the "unspecified" preference). -/
inductive SkColorType : Type
  | kUnknown
  | kAlpha8
  | kRGB565
  | kARGB4444
  | kN32
  | kIndex8
  deriving DecidableEq, Repr

/-- Model of `SkIRect`, set up in `nativeDecodeRegion` lines 207-211. -/
structure SkIRect : Type where
  fLeft : Int
  fTop : Int
  fRight : Int
  fBottom : Int
  deriving DecidableEq, Repr

/-- An `SkBitmap` as this layer observes it: its dimensions and the
identity of the pixel storage backing it. -/
structure SkBitmap : Type where
  width : Int
  height : Int
  pixelsId : Nat
  deriving DecidableEq, Repr

/-- A default-constructed `SkBitmap bitmap;` (line 212): empty. -/
def emptyBitmap : SkBitmap := ⟨0, 0, 0⟩

/-- The state of an `SkImageDecoder` backend instance as visible to this
file: its format identity and the per-call mutable settings this file
writes through `setSampleSize` / `setDitherImage` /
`setPreferQualityOverSpeed` / `setRequireUnpremultipliedColors`. -/
structure SkImageDecoder : Type where
  formatName : String
  format : Nat
  sampleSize : Int
  ditherImage : Bool
  preferQualityOverSpeed : Bool
  requireUnpremultipliedColors : Bool
  deriving DecidableEq, Repr

def SkImageDecoder.setSampleSize (d : SkImageDecoder) (s : Int) :
    SkImageDecoder :=
  { d with sampleSize := s }

def SkImageDecoder.setDitherImage (d : SkImageDecoder) (b : Bool) :
    SkImageDecoder :=
  { d with ditherImage := b }

def SkImageDecoder.setPreferQualityOverSpeed (d : SkImageDecoder) (b : Bool) :
    SkImageDecoder :=
  { d with preferQualityOverSpeed := b }

def SkImageDecoder.setRequireUnpremultipliedColors (d : SkImageDecoder)
    (b : Bool) : SkImageDecoder :=
  { d with requireUnpremultipliedColors := b }

/-- The behaviour of the backend's virtual `decodeSubset(bitmap, rect, pref)`
call: given the decoder state at the moment of the call, the target bitmap,
the requested rectangle and the color-type preference, it either fails
(`none`, the C++ `false` return) or succeeds with the decoded bitmap
(`some`, the C++ `true` return with `*bitmap` written). -/
def SubsetBackend : Type :=
  SkImageDecoder → SkBitmap → SkIRect → SkColorType → Option SkBitmap

/-- Model of `class SkBitmapRegionDecoder` (lines 42-67): wraps the decoder and the
dimensions discovered by `buildTileIndex`. -/
structure SkBitmapRegionDecoder : Type where
  fDecoder : SkImageDecoder
  fWidth : Int
  fHeight : Int
  deriving DecidableEq, Repr

def SkBitmapRegionDecoder.getWidth (brd : SkBitmapRegionDecoder) : Int :=
  brd.fWidth

def SkBitmapRegionDecoder.getHeight (brd : SkBitmapRegionDecoder) : Int :=
  brd.fHeight

/-- Model of `SkBitmapRegionDecoder::decodeRegion` (lines 53-57):
`fDecoder->setSampleSize(sampleSize); return fDecoder->decodeSubset(...)`.
Returns the handle with its mutated decoder together with the decode
outcome. -/
def SkBitmapRegionDecoder.decodeRegion (backend : SubsetBackend)
    (brd : SkBitmapRegionDecoder) (bitmap : SkBitmap) (rect : SkIRect)
    (pref : SkColorType) (sampleSize : Int) :
    SkBitmapRegionDecoder × Option SkBitmap :=
  let d := brd.fDecoder.setSampleSize sampleSize
  (⟨d, brd.fWidth, brd.fHeight⟩, backend d bitmap rect pref)

/-- What became of the input `SkStreamRewindable` during construction. -/
inductive StreamFate : Type
  | deletedDirectly
  | consumedByBuildFail
  | ownedByDecoder
  deriving DecidableEq, Repr

/-- The value `createBitmapRegionDecoder` hands back to Java: a thrown
`IOException` paired with a null object return, or a live handle. -/
inductive CreateResult : Type
  | errUnsupported (msg : String)
  | errIndexBuild (msg : String)
  | ok (brd : SkBitmapRegionDecoder)
  deriving DecidableEq, Repr

structure CreateOutcome : Type where
  result : CreateResult
  streamFate : StreamFate
  decoderDeleted : Bool
  deriving DecidableEq, Repr

/-- Model of `createBitmapRegionDecoder` (lines 71-96).

`factoryResult` is the outcome of the external
`SkImageDecoder::Factory(stream)` sniffing call (`none` when no format
decoder recognizes the stream); `tileIndex` is the outcome of the external
`decoder->buildTileIndex(stream, &width, &height)` call (`none` on failure,
`some (width, height)` on success).  Per the source comment at line 84,
`buildTileIndex` takes ownership of the stream on success and deletes it on
failure; line 75 deletes the stream directly on the no-decoder path. -/
def createBitmapRegionDecoder (factoryResult : Option SkImageDecoder)
    (tileIndex : Option (Int × Int)) : CreateOutcome :=
  match factoryResult with
  | none =>
      { result := .errUnsupported "Image format not supported"
        streamFate := .deletedDirectly
        decoderDeleted := false }
  | some decoder =>
      match tileIndex with
      | none =>
          { result := .errIndexBuild
              ("Image failed to decode using " ++ decoder.formatName
                ++ " decoder")
            streamFate := .consumedByBuildFail
            decoderDeleted := true }
      | some (width, height) =>
          { result := .ok ⟨decoder, width, height⟩
            streamFate := .ownedByDecoder
            decoderDeleted := false }

/-- Model of `nativeGetWidth` (lines 252-255). -/
def nativeGetWidth (brd : SkBitmapRegionDecoder) : Int :=
  brd.getWidth

/-- Model of `nativeGetHeight` (lines 247-250). -/
def nativeGetHeight (brd : SkBitmapRegionDecoder) : Int :=
  brd.getHeight

/-- The Java `BitmapFactory.Options` object as this file reads and writes
it.  `configColorType` stands for the value the external helper
`GraphicsJNI::getNativeBitmapColorType` extracts from the `inPreferredConfig`
field; `outMimeType` holds the format identifier the external
`getMimeTypeString` helper renders (`none` is the Java `null`). -/
structure Options : Type where
  inSampleSize : Int
  outWidth : Int
  outHeight : Int
  outMimeType : Option Nat
  configColorType : SkColorType
  inDither : Bool
  inPreferQualityOverSpeed : Bool
  inBitmap : Option SkBitmap
  inPremultiplied : Bool
  mCancel : Bool
  deriving DecidableEq, Repr

/-- Value of `GraphicsJNI::kBitmapCreateFlag_Premultiplied` (GraphicsJNI.h, external
to this file): the flag value combined into `bitmapCreateFlags` at
line 242. -/
def kBitmapCreateFlag_Premultiplied : Nat := 2

/-- The object reference `nativeDecodeRegion` returns to Java:
`nullObjectReturn(msg)` on the failure paths, the caller's reuse bitmap on
the reuse path (line 236), or a freshly created Java bitmap over the
allocator's storage with the computed create flags (lines 243-244). -/
inductive DecodeResult : Type
  | nullReturn (msg : String)
  | reusedBitmap (tile : SkBitmap)
  | newBitmap (storagePixelsId : Nat) (bitmapCreateFlags : Nat)
  deriving DecidableEq, Repr

/-- A record of the one `decodeSubset` invocation a `nativeDecodeRegion`
call performs (through `SkBitmapRegionDecoder::decodeRegion`): the decoder
state at the moment of the call and the arguments passed. -/
structure SubsetCall : Type where
  decoderState : SkImageDecoder
  bitmapIn : SkBitmap
  rect : SkIRect
  pref : SkColorType
  deriving DecidableEq, Repr

/-- Everything observable about one `nativeDecodeRegion` call: the returned
object, the `Options` object's fields after the call, the handle after the
call (`none` would mean the handle was destroyed; `nativeClean` is the only
place that does that), whether and how the backend's subset decode was
invoked, whether `notifyPixelsChanged` was called on the reuse bitmap, and
the number of live `AutoDecoderCancel` registrations after the call
returns. -/
structure DecodeOutcome : Type where
  result : DecodeResult
  optionsAfter : Option Options
  brdAfter : Option SkBitmapRegionDecoder
  subsetCall : Option SubsetCall
  pixelsChangeNotified : Bool
  registrationsAfter : Nat
  deriving DecidableEq, Repr

/-- Model of `nativeDecodeRegion` (lines 167-245).

`backend` gives the behaviour of the external virtual `decodeSubset`;
`registrationsBefore` counts the `AutoDecoderCancel` registrations live in
the process before the call (the `AutoDecoderCancel adc(options, decoder)`
object at line 198 registers on construction and unregisters when it goes
out of scope on any return path).  `options = none` is a null Java
`Options` reference. -/
def nativeDecodeRegion (backend : SubsetBackend) (registrationsBefore : Nat)
    (brd : SkBitmapRegionDecoder) (start_x start_y width height : Int)
    (options : Option Options) : DecodeOutcome :=
  -- lines 172-176: defaults; lines 178-193: reads from a non-null options
  let sampleSize : Int :=
    match options with
    | some o => o.inSampleSize
    | none => 1
  let prefColorType : SkColorType :=
    match options with
    | some o => o.configColorType
    | none => .kUnknown
  let doDither : Bool :=
    match options with
    | some o => o.inDither
    | none => true
  let preferQualityOverSpeed : Bool :=
    match options with
    | some o => o.inPreferQualityOverSpeed
    | none => false
  let tileBitmap : Option SkBitmap :=
    match options with
    | some o => o.inBitmap
    | none => none
  let requireUnpremultiplied : Bool :=
    match options with
    | some o => !o.inPremultiplied
    | none => false
  -- lines 181-183: "initialize these, in case we fail later on"
  let options : Option Options :=
    match options with
    | some o => some { o with outWidth := -1, outHeight := -1,
                              outMimeType := none }
    | none => none
  -- lines 195-197: per-call decoder configuration
  let decoder :=
    ((brd.fDecoder.setDitherImage doDither).setPreferQualityOverSpeed
        preferQualityOverSpeed).setRequireUnpremultipliedColors
      requireUnpremultiplied
  let brd : SkBitmapRegionDecoder := ⟨decoder, brd.fWidth, brd.fHeight⟩
  -- line 198: AutoDecoderCancel adc(options, decoder) registers
  let registrations := registrationsBefore + 1
  -- lines 203-205: pre-check for a cancellation that raced registration
  if (match options with
      | some o => o.mCancel
      | none => false) then
    { result := .nullReturn "gOptions_mCancelID"
      optionsAfter := options
      brdAfter := some brd
      subsetCall := none
      pixelsChangeNotified := false
      registrationsAfter := registrations - 1 }
  else
    -- lines 207-211: the target rectangle, taken verbatim
    let region : SkIRect :=
      ⟨start_x, start_y, start_x + width, start_y + height⟩
    -- lines 212-217: target bitmap, reused when supplied
    let bitmap : SkBitmap :=
      match tileBitmap with
      | some tb => tb
      | none => emptyBitmap
    -- line 219: brd->decodeRegion(&bitmap, region, prefColorType, sampleSize)
    let step := brd.decodeRegion backend bitmap region prefColorType sampleSize
    let brd := step.1
    let call : SubsetCall := ⟨brd.fDecoder, bitmap, region, prefColorType⟩
    match step.2 with
    | none =>
        { result := .nullReturn "decoder->decodeRegion returned false"
          optionsAfter := options
          brdAfter := some brd
          subsetCall := some call
          pixelsChangeNotified := false
          registrationsAfter := registrations - 1 }
    | some outBitmap =>
        -- lines 224-232: write back actual dimensions and format
        let options : Option Options :=
          match options with
          | some o => some { o with outWidth := outBitmap.width,
                                    outHeight := outBitmap.height,
                                    outMimeType := some brd.fDecoder.format }
          | none => none
        match tileBitmap with
        | some tb =>
            -- lines 234-237: notify and return the caller's bitmap
            { result := .reusedBitmap tb
              optionsAfter := options
              brdAfter := some brd
              subsetCall := some call
              pixelsChangeNotified := true
              registrationsAfter := registrations - 1 }
        | none =>
            -- lines 239-244: fresh bitmap with the premultiplication flag
            let bitmapCreateFlags : Nat :=
              if !requireUnpremultiplied then kBitmapCreateFlag_Premultiplied
              else 0
            { result := .newBitmap outBitmap.pixelsId bitmapCreateFlags
              optionsAfter := options
              brdAfter := some brd
              subsetCall := some call
              pixelsChangeNotified := false
              registrationsAfter := registrations - 1 }

/-- The `requireUnpremultiplied` flag a `nativeDecodeRegion` call computes
from its options argument: the negation of the `inPremultiplied` field at
line 192, or the default `false` of line 176. -/
def requireUnpremultipliedOf (options : Option Options) : Bool :=
  match options with
  | some o => !o.inPremultiplied
  | none => false

/-- One `nativeDecodeRegion` call's arguments, bundled so that sequences of
calls on one handle can be iterated. -/
structure DecodeCall : Type where
  backend : SubsetBackend
  registrationsBefore : Nat
  start_x : Int
  start_y : Int
  width : Int
  height : Int
  options : Option Options

def runCall (brd : SkBitmapRegionDecoder) (c : DecodeCall) : DecodeOutcome :=
  nativeDecodeRegion c.backend c.registrationsBefore brd c.start_x c.start_y
    c.width c.height c.options

/-- The handle after a sequence of `nativeDecodeRegion` calls, each applied
to the handle state the previous call left behind. -/
def afterCalls (brd : SkBitmapRegionDecoder) :
    List DecodeCall → SkBitmapRegionDecoder
  | [] => brd
  | c :: rest => afterCalls ((runCall brd c).brdAfter.getD brd) rest

/-- Helper: every `nativeDecodeRegion` call leaves the handle alive with its
dimensions untouched (only the decoder's per-call settings change). -/
theorem nativeDecodeRegion_brdAfter (f : SubsetBackend) (g : Nat)
    (brd : SkBitmapRegionDecoder) (x y w h : Int) (o : Option Options) :
    ∃ brd', (nativeDecodeRegion f g brd x y w h o).brdAfter = some brd' ∧
      brd'.fWidth = brd.fWidth ∧ brd'.fHeight = brd.fHeight := by
  unfold nativeDecodeRegion
  cases o <;> dsimp only [SkBitmapRegionDecoder.decodeRegion] <;> (try split) <;>
    (try split) <;> (try split) <;> exact ⟨_, rfl, rfl, rfl⟩

/-- Helper: a sequence of decode calls never changes the handle's
dimensions. -/
theorem afterCalls_dims (calls : List DecodeCall) (brd : SkBitmapRegionDecoder) :
    (afterCalls brd calls).fWidth = brd.fWidth ∧
    (afterCalls brd calls).fHeight = brd.fHeight := by
  induction calls generalizing brd with
  | nil => exact ⟨rfl, rfl⟩
  | cons c rest ih =>
    obtain ⟨brd', hsome, hw, hh⟩ :=
      nativeDecodeRegion_brdAfter c.backend c.registrationsBefore brd
        c.start_x c.start_y c.width c.height c.options
    have : (runCall brd c).brdAfter.getD brd = brd' := by
      simp [runCall, hsome]
    obtain ⟨iw, ihh⟩ := ih brd'
    simp only [afterCalls, this]
    exact ⟨iw.trans hw, ihh.trans hh⟩

/-- C9: every exit path of `nativeDecodeRegion` — the cancellation
short-circuit, the backend-failure return, the reuse-bitmap return and the
fresh-bitmap return — unregisters the `AutoDecoderCancel` registration
created at entry: the number of live registrations after the call equals
the number before it, so no dangling registration remains. -/
theorem C9_guard_unregistered_on_every_exit (f : SubsetBackend) (g : Nat)
    (brd : SkBitmapRegionDecoder) (x y w h : Int) (o : Option Options) :
    (nativeDecodeRegion f g brd x y w h o).registrationsAfter = g := by
  unfold nativeDecodeRegion
  cases o <;> dsimp only <;> (try split) <;> (try split) <;> (try split) <;> simp

/-- Helper: inversion of a successful construction — `ok` arises only when
the factory recognized the stream and `buildTileIndex` succeeded, and the
handle is built from those. -/
theorem createBitmapRegionDecoder_ok_inversion
    (factoryResult : Option SkImageDecoder) (tileIndex : Option (Int × Int))
    (brd : SkBitmapRegionDecoder)
    (hok : (createBitmapRegionDecoder factoryResult tileIndex).result =
      .ok brd) :
    ∃ d wd ht, factoryResult = some d ∧ tileIndex = some (wd, ht) ∧
      brd = ⟨d, wd, ht⟩ := by
  cases factoryResult with
  | none => simp [createBitmapRegionDecoder] at hok
  | some d =>
    cases tileIndex with
    | none => simp [createBitmapRegionDecoder] at hok
    | some p =>
      refine ⟨d, p.1, p.2, rfl, rfl, ?_⟩
      simp [createBitmapRegionDecoder] at hok
      exact hok.symm

/-- C1: `createBitmapRegionDecoder` either fails with the
"Image format not supported" error (no format decoder recognizes the
stream; the stream is deleted directly), or fails with the
"Image failed to decode using X decoder" error (the recognized decoder's
`buildTileIndex` fails; the stream was consumed by `buildTileIndex`), or
returns a live handle built from the recognized decoder and the dimensions
`buildTileIndex` discovered — never a partial handle on a failure path. -/
theorem C1_create_outcomes (factoryResult : Option SkImageDecoder)
    (tileIndex : Option (Int × Int)) :
    (factoryResult = none →
      (createBitmapRegionDecoder factoryResult tileIndex).result =
          .errUnsupported "Image format not supported" ∧
      (createBitmapRegionDecoder factoryResult tileIndex).streamFate =
          .deletedDirectly) ∧
    (∀ d, factoryResult = some d → tileIndex = none →
      (createBitmapRegionDecoder factoryResult tileIndex).result =
          .errIndexBuild
            ("Image failed to decode using " ++ d.formatName ++ " decoder") ∧
      (createBitmapRegionDecoder factoryResult tileIndex).streamFate =
          .consumedByBuildFail) ∧
    (∀ brd, (createBitmapRegionDecoder factoryResult tileIndex).result =
        .ok brd →
      ∃ d wd ht, factoryResult = some d ∧ tileIndex = some (wd, ht) ∧
        brd = ⟨d, wd, ht⟩) := by
  refine ⟨?_, ?_, ?_⟩
  · rintro rfl
    exact ⟨rfl, rfl⟩
  · rintro d rfl rfl
    exact ⟨rfl, rfl⟩
  · exact fun brd hok =>
      createBitmapRegionDecoder_ok_inversion factoryResult tileIndex brd hok

/-- Witness for C1 at concrete inputs: with no recognizing decoder, the
result is the "Image format not supported" error and the stream is deleted
directly. -/
theorem C1_create_outcomes_witness :
    (createBitmapRegionDecoder none none).result =
        CreateResult.errUnsupported "Image format not supported" ∧
    (createBitmapRegionDecoder none none).streamFate =
        StreamFate.deletedDirectly :=
  (C1_create_outcomes none none).1 rfl

/-- C3: a handle successfully constructed by `createBitmapRegionDecoder`
reports through `nativeGetWidth` / `nativeGetHeight` exactly the dimensions
`buildTileIndex` discovered, and these stay unchanged across any sequence
of subsequent `nativeDecodeRegion` calls on the handle. -/
theorem C3_dimensions_from_index_and_stable
    (factoryResult : Option SkImageDecoder) (tileIndex : Option (Int × Int))
    (brd : SkBitmapRegionDecoder)
    (hok : (createBitmapRegionDecoder factoryResult tileIndex).result =
      .ok brd) :
    ∃ wd ht, tileIndex = some (wd, ht) ∧
      nativeGetWidth brd = wd ∧ nativeGetHeight brd = ht ∧
      ∀ calls : List DecodeCall,
        nativeGetWidth (afterCalls brd calls) = wd ∧
        nativeGetHeight (afterCalls brd calls) = ht := by
  obtain ⟨d, wd, ht, -, htile, hbrd⟩ :=
    createBitmapRegionDecoder_ok_inversion factoryResult tileIndex brd hok
  subst hbrd
  refine ⟨wd, ht, htile, rfl, rfl, fun calls => ?_⟩
  obtain ⟨hw, hh⟩ := afterCalls_dims calls ⟨d, wd, ht⟩
  exact ⟨hw, hh⟩

/-- Witness for C3 at concrete inputs: a construction that discovered
dimensions 100 × 100. -/
theorem C3_dimensions_witness :
    ∃ wd ht, (some ((100 : Int), (100 : Int))) = some (wd, ht) ∧
      nativeGetWidth ⟨⟨"PNG", 1, 1, true, false, false⟩, 100, 100⟩ = wd ∧
      nativeGetHeight ⟨⟨"PNG", 1, 1, true, false, false⟩, 100, 100⟩ = ht ∧
      ∀ calls : List DecodeCall,
        nativeGetWidth
          (afterCalls ⟨⟨"PNG", 1, 1, true, false, false⟩, 100, 100⟩ calls) =
          wd ∧
        nativeGetHeight
          (afterCalls ⟨⟨"PNG", 1, 1, true, false, false⟩, 100, 100⟩ calls) =
          ht :=
  C3_dimensions_from_index_and_stable
    (some ⟨"PNG", 1, 1, true, false, false⟩) (some (100, 100)) _ rfl

/-- Whether a decode call returned a live bitmap (as opposed to one of the
`nullObjectReturn` failure paths). -/
def DecodeResult.isSuccess : DecodeResult → Bool
  | .nullReturn _ => false
  | .reusedBitmap _ => true
  | .newBitmap _ _ => true

/-- C2 counterexample: with the cancel flag already set at entry, the call
does return the cancelled null result without invoking `decodeSubset`, but
the backend is touched before the check: the per-call configuration setters
have already run, observably changing the decoder's state (here `inDither =
false` overwrites the decoder's previous `ditherImage = true`). -/
theorem C2_counterexample :
    (nativeDecodeRegion (fun _ _ _ _ => none) 0
        ⟨⟨"PNG", 1, 1, true, false, false⟩, 100, 100⟩ 0 0 10 10
        (some ⟨1, 0, 0, none, .kUnknown, false, false, none, true,
               true⟩)).result =
      DecodeResult.nullReturn "gOptions_mCancelID" ∧
    (nativeDecodeRegion (fun _ _ _ _ => none) 0
        ⟨⟨"PNG", 1, 1, true, false, false⟩, 100, 100⟩ 0 0 10 10
        (some ⟨1, 0, 0, none, .kUnknown, false, false, none, true,
               true⟩)).subsetCall = none ∧
    (nativeDecodeRegion (fun _ _ _ _ => none) 0
        ⟨⟨"PNG", 1, 1, true, false, false⟩, 100, 100⟩ 0 0 10 10
        (some ⟨1, 0, 0, none, .kUnknown, false, false, none, true,
               true⟩)).brdAfter =
      some ⟨⟨"PNG", 1, 1, false, false, false⟩, 100, 100⟩ ∧
    (⟨"PNG", 1, 1, false, false, false⟩ : SkImageDecoder) ≠
      ⟨"PNG", 1, 1, true, false, false⟩ := by
  refine ⟨rfl, rfl, rfl, ?_⟩
  decide

/-- C2 (amended): when the cancel flag is already set at entry, the call
returns the cancelled null result without invoking the backend's
subset-decode operation; however the backend's per-call configuration
flags (dither, quality preference, premultiplication requirement) have
already been written to the decoder before the check runs. -/
theorem C2_cancel_short_circuit (f : SubsetBackend) (g : Nat)
    (brd : SkBitmapRegionDecoder) (x y w h : Int) (o : Options)
    (hcancel : o.mCancel = true) :
    (nativeDecodeRegion f g brd x y w h (some o)).result =
        .nullReturn "gOptions_mCancelID" ∧
    (nativeDecodeRegion f g brd x y w h (some o)).subsetCall = none ∧
    (nativeDecodeRegion f g brd x y w h (some o)).brdAfter =
      some ⟨((brd.fDecoder.setDitherImage o.inDither).setPreferQualityOverSpeed
            o.inPreferQualityOverSpeed).setRequireUnpremultipliedColors
            (!o.inPremultiplied),
          brd.fWidth, brd.fHeight⟩ := by
  unfold nativeDecodeRegion
  dsimp only
  rw [if_pos hcancel]
  exact ⟨rfl, rfl, rfl⟩

/-- Witness for C2 at a concrete input. -/
theorem C2_cancel_short_circuit_witness :
    (nativeDecodeRegion (fun _ _ _ _ => some emptyBitmap) 3
        ⟨⟨"JPEG", 0, 1, true, false, false⟩, 64, 64⟩ 1 2 3 4
        (some ⟨2, 0, 0, none, .kN32, true, false, none, false,
               true⟩)).result =
        DecodeResult.nullReturn "gOptions_mCancelID" ∧
    (nativeDecodeRegion (fun _ _ _ _ => some emptyBitmap) 3
        ⟨⟨"JPEG", 0, 1, true, false, false⟩, 64, 64⟩ 1 2 3 4
        (some ⟨2, 0, 0, none, .kN32, true, false, none, false,
               true⟩)).subsetCall = none ∧
    (nativeDecodeRegion (fun _ _ _ _ => some emptyBitmap) 3
        ⟨⟨"JPEG", 0, 1, true, false, false⟩, 64, 64⟩ 1 2 3 4
        (some ⟨2, 0, 0, none, .kN32, true, false, none, false,
               true⟩)).brdAfter =
      some ⟨(((⟨⟨"JPEG", 0, 1, true, false, false⟩, 64,
              64⟩ : SkBitmapRegionDecoder).fDecoder.setDitherImage
              true).setPreferQualityOverSpeed false).setRequireUnpremultipliedColors
            (!false), 64, 64⟩ :=
  C2_cancel_short_circuit (fun _ _ _ _ => some emptyBitmap) 3
    ⟨⟨"JPEG", 0, 1, true, false, false⟩, 64, 64⟩ 1 2 3 4
    ⟨2, 0, 0, none, .kN32, true, false, none, false, true⟩ rfl

/-- C6: with a null options reference, the backend subset decode is invoked
with exactly the defaults: sample size 1, dither on, quality preference
off, unpremultiplied requirement off, unknown (unspecified) color-type
preference, and a fresh empty target bitmap (no reuse buffer). -/
theorem C6_null_options_defaults (f : SubsetBackend) (g : Nat)
    (brd : SkBitmapRegionDecoder) (x y w h : Int) :
    (nativeDecodeRegion f g brd x y w h none).subsetCall =
      some ⟨⟨brd.fDecoder.formatName, brd.fDecoder.format, 1, true, false,
             false⟩, emptyBitmap, ⟨x, y, x + w, y + h⟩, .kUnknown⟩ := by
  unfold nativeDecodeRegion
  dsimp only [SkBitmapRegionDecoder.decodeRegion]
  split
  · exact absurd ‹false = true› (by simp)
  · split <;> rfl

/-- C7: whenever the backend subset decode is invoked, the rectangle it
receives is exactly `(start_x, start_y, start_x + width, start_y + height)`
— no clamping or normalization by the orchestrator, for out-of-bounds and
degenerate inputs alike. -/
theorem C7_rect_forwarded_verbatim (f : SubsetBackend) (g : Nat)
    (brd : SkBitmapRegionDecoder) (x y w h : Int) (o : Option Options)
    (c : SubsetCall)
    (hc : (nativeDecodeRegion f g brd x y w h o).subsetCall = some c) :
    c.rect = ⟨x, y, x + w, y + h⟩ := by
  unfold nativeDecodeRegion at hc
  cases o <;> dsimp only [SkBitmapRegionDecoder.decodeRegion] at hc <;>
    (try split at hc) <;> (try split at hc) <;> (try split at hc) <;>
  first
    | exact Option.noConfusion hc
    | (injection hc with hc; subst hc; rfl)

/-- Witness for C7 at a concrete out-of-bounds, degenerate input. -/
theorem C7_rect_forwarded_witness :
    SubsetCall.rect ⟨⟨"PNG", 1, 1, true, false, false⟩, emptyBitmap,
        ⟨-5, -7, -5 + -3, -7 + 0⟩, .kUnknown⟩ =
      ⟨-5, -7, -5 + -3, -7 + 0⟩ :=
  C7_rect_forwarded_verbatim (fun _ _ _ _ => none) 0
    ⟨⟨"PNG", 1, 1, true, false, false⟩, 100, 100⟩ (-5) (-7) (-3) 0 none
    ⟨⟨"PNG", 1, 1, true, false, false⟩, emptyBitmap,
      ⟨-5, -7, -5 + -3, -7 + 0⟩, .kUnknown⟩ (by decide)

/-- C4: when the backend's subset decode returns `false`, the call returns
the one uniform `nullObjectReturn` failure (no sub-reason distinction), and
the handle survives with its dimensions intact, ready for further decode
calls. -/
theorem C4_decode_failure_uniform_and_nonfatal (f : SubsetBackend) (g : Nat)
    (brd : SkBitmapRegionDecoder) (x y w h : Int) (o : Option Options)
    (c : SubsetCall)
    (hc : (nativeDecodeRegion f g brd x y w h o).subsetCall = some c)
    (hfail : f c.decoderState c.bitmapIn c.rect c.pref = none) :
    (nativeDecodeRegion f g brd x y w h o).result =
        .nullReturn "decoder->decodeRegion returned false" ∧
    ∃ brd', (nativeDecodeRegion f g brd x y w h o).brdAfter = some brd' ∧
      brd'.fWidth = brd.fWidth ∧ brd'.fHeight = brd.fHeight := by
  unfold nativeDecodeRegion at hc ⊢
  cases o <;> dsimp only [SkBitmapRegionDecoder.decodeRegion] at hc ⊢ <;>
    (try split at hc) <;> (try split at hc) <;> (try split at hc) <;>
  first
    | exact Option.noConfusion hc
    | (injection hc with hc; subst hc; simp_all)

/-- Witness for C4 at a concrete input whose backend fails. -/
theorem C4_decode_failure_witness :
    (nativeDecodeRegion (fun _ _ _ _ => none) 0
        ⟨⟨"PNG", 1, 1, true, false, false⟩, 100, 100⟩ 0 0 10 10 none).result =
      DecodeResult.nullReturn "decoder->decodeRegion returned false" ∧
    ∃ brd', (nativeDecodeRegion (fun _ _ _ _ => none) 0
        ⟨⟨"PNG", 1, 1, true, false, false⟩, 100, 100⟩ 0 0 10 10
        none).brdAfter = some brd' ∧
      brd'.fWidth =
        (⟨⟨"PNG", 1, 1, true, false, false⟩, 100,
          100⟩ : SkBitmapRegionDecoder).fWidth ∧
      brd'.fHeight =
        (⟨⟨"PNG", 1, 1, true, false, false⟩, 100,
          100⟩ : SkBitmapRegionDecoder).fHeight :=
  C4_decode_failure_uniform_and_nonfatal (fun _ _ _ _ => none) 0
    ⟨⟨"PNG", 1, 1, true, false, false⟩, 100, 100⟩ 0 0 10 10 none
    ⟨⟨"PNG", 1, 1, true, false, false⟩, emptyBitmap, ⟨0, 0, 0 + 10, 0 + 10⟩,
      .kUnknown⟩ (by decide) rfl

/-- C5: every successful decode call with a non-null options object writes
the actual decoded dimensions and the detected format back into the options
object, on both the reuse-buffer path and the fresh-allocation path; when a
reuse buffer was supplied it is returned directly with its pixels marked
changed. -/
theorem C5_success_options_writeback (f : SubsetBackend) (g : Nat)
    (brd : SkBitmapRegionDecoder) (x y w h : Int) (o : Options)
    (hsucc : ((nativeDecodeRegion f g brd x y w h (some o)).result).isSuccess =
      true) :
    ∃ c bm,
      (nativeDecodeRegion f g brd x y w h (some o)).subsetCall = some c ∧
      f c.decoderState c.bitmapIn c.rect c.pref = some bm ∧
      (nativeDecodeRegion f g brd x y w h (some o)).optionsAfter =
        some { o with outWidth := bm.width, outHeight := bm.height,
                      outMimeType := some c.decoderState.format } ∧
      (∀ tb, o.inBitmap = some tb →
        (nativeDecodeRegion f g brd x y w h (some o)).result =
            .reusedBitmap tb ∧
        (nativeDecodeRegion f g brd x y w h (some o)).pixelsChangeNotified =
            true) ∧
      (o.inBitmap = none → ∃ stg fl,
        (nativeDecodeRegion f g brd x y w h (some o)).result =
          .newBitmap stg fl) := by
  revert hsucc
  unfold nativeDecodeRegion
  dsimp only [SkBitmapRegionDecoder.decodeRegion]
  split
  · intro hsucc
    exact absurd hsucc (by simp [DecodeResult.isSuccess])
  · split
    · intro hsucc
      exact absurd hsucc (by simp [DecodeResult.isSuccess])
    · rename_i hbm
      split
      · rename_i tb htb
        intro hsucc
        rw [htb] at hbm
        refine ⟨_, _, rfl, hbm, rfl, ?_, ?_⟩
        · intro tb' htb'
          rw [htb] at htb'
          injection htb' with htb'
          subst htb'
          exact ⟨rfl, rfl⟩
        · intro h0
          rw [htb] at h0
          exact Option.noConfusion h0
      · rename_i htb
        intro hsucc
        rw [htb] at hbm
        refine ⟨_, _, rfl, hbm, rfl, ?_, ?_⟩
        · intro tb' htb'
          rw [htb] at htb'
          exact Option.noConfusion htb'
        · intro h0
          exact ⟨_, _, rfl⟩

/-- Witness for C5 at a concrete successful fresh-allocation call. -/
theorem C5_success_writeback_witness :
    ∃ c bm,
      (nativeDecodeRegion (fun _ _ _ _ => some ⟨50, 50, 7⟩) 0
          ⟨⟨"PNG", 1, 1, true, false, false⟩, 100, 100⟩ 0 0 50 50
          (some ⟨1, 0, 0, none, .kUnknown, true, false, none, true,
                 false⟩)).subsetCall = some c ∧
      (fun (_ : SkImageDecoder) (_ : SkBitmap) (_ : SkIRect) (_ : SkColorType)
          => some (⟨50, 50, 7⟩ : SkBitmap)) c.decoderState c.bitmapIn c.rect
          c.pref = some bm ∧
      (nativeDecodeRegion (fun _ _ _ _ => some ⟨50, 50, 7⟩) 0
          ⟨⟨"PNG", 1, 1, true, false, false⟩, 100, 100⟩ 0 0 50 50
          (some ⟨1, 0, 0, none, .kUnknown, true, false, none, true,
                 false⟩)).optionsAfter =
        some { (⟨1, 0, 0, none, .kUnknown, true, false, none, true,
                 false⟩ : Options) with
               outWidth := bm.width, outHeight := bm.height,
               outMimeType := some c.decoderState.format } ∧
      (∀ tb, (⟨1, 0, 0, none, .kUnknown, true, false, none, true,
               false⟩ : Options).inBitmap = some tb →
        (nativeDecodeRegion (fun _ _ _ _ => some ⟨50, 50, 7⟩) 0
            ⟨⟨"PNG", 1, 1, true, false, false⟩, 100, 100⟩ 0 0 50 50
            (some ⟨1, 0, 0, none, .kUnknown, true, false, none, true,
                   false⟩)).result = .reusedBitmap tb ∧
        (nativeDecodeRegion (fun _ _ _ _ => some ⟨50, 50, 7⟩) 0
            ⟨⟨"PNG", 1, 1, true, false, false⟩, 100, 100⟩ 0 0 50 50
            (some ⟨1, 0, 0, none, .kUnknown, true, false, none, true,
                   false⟩)).pixelsChangeNotified = true) ∧
      ((⟨1, 0, 0, none, .kUnknown, true, false, none, true,
         false⟩ : Options).inBitmap = none → ∃ stg fl,
        (nativeDecodeRegion (fun _ _ _ _ => some ⟨50, 50, 7⟩) 0
            ⟨⟨"PNG", 1, 1, true, false, false⟩, 100, 100⟩ 0 0 50 50
            (some ⟨1, 0, 0, none, .kUnknown, true, false, none, true,
                   false⟩)).result = .newBitmap stg fl) :=
  C5_success_options_writeback (fun _ _ _ _ => some ⟨50, 50, 7⟩) 0
    ⟨⟨"PNG", 1, 1, true, false, false⟩, 100, 100⟩ 0 0 50 50
    ⟨1, 0, 0, none, .kUnknown, true, false, none, true, false⟩ (by decide)

/-- C8: a freshly allocated result bitmap carries the premultiplied create
flag exactly when the caller did not require unpremultiplied output, where
that requirement is the negation of the options object's `inPremultiplied`
field and `false` when no options object was supplied. -/
theorem C8_fresh_bitmap_premult_flag (f : SubsetBackend) (g : Nat)
    (brd : SkBitmapRegionDecoder) (x y w h : Int) (o : Option Options)
    (stg fl : Nat)
    (hres : (nativeDecodeRegion f g brd x y w h o).result =
      .newBitmap stg fl) :
    (fl = kBitmapCreateFlag_Premultiplied ↔
      requireUnpremultipliedOf o = false) ∧
    (fl = 0 ↔ requireUnpremultipliedOf o = true) := by
  revert hres
  unfold nativeDecodeRegion
  cases o with
  | none =>
    dsimp only [SkBitmapRegionDecoder.decodeRegion]
    split
    · intro hres
      exact absurd ‹false = true› (by simp)
    · split
      · intro hres
        exact DecodeResult.noConfusion hres
      · intro hres
        injection hres with h1 h2
        subst h2
        decide
  | some o' =>
    dsimp only [SkBitmapRegionDecoder.decodeRegion]
    split
    · intro hres
      exact DecodeResult.noConfusion hres
    · split
      · intro hres
        exact DecodeResult.noConfusion hres
      · split
        · intro hres
          exact DecodeResult.noConfusion hres
        · intro hres
          injection hres with h1 h2
          subst h2
          cases hp : o'.inPremultiplied <;>
            simp [requireUnpremultipliedOf, kBitmapCreateFlag_Premultiplied,
              hp]

/-- Witness for C8 at a concrete fresh-allocation success. -/
theorem C8_fresh_bitmap_premult_flag_witness :
    ((2 : Nat) = kBitmapCreateFlag_Premultiplied ↔
      requireUnpremultipliedOf none = false) ∧
    ((2 : Nat) = 0 ↔ requireUnpremultipliedOf none = true) :=
  C8_fresh_bitmap_premult_flag (fun _ _ _ _ => some ⟨50, 50, 7⟩) 0
    ⟨⟨"PNG", 1, 1, true, false, false⟩, 100, 100⟩ 0 0 50 50 none 7 2
    (by decide)

/-- C10: with a non-null options object, `outWidth`/`outHeight` are set to
-1 and the MIME field to null before the decode is attempted, so every
failing call (cancellation pre-check or backend failure) leaves exactly
those values behind in the options object. -/
theorem C10_options_reset_observable_on_failure (f : SubsetBackend) (g : Nat)
    (brd : SkBitmapRegionDecoder) (x y w h : Int) (o : Options) (msg : String)
    (hfail : (nativeDecodeRegion f g brd x y w h (some o)).result =
      .nullReturn msg) :
    (nativeDecodeRegion f g brd x y w h (some o)).optionsAfter =
      some { o with outWidth := -1, outHeight := -1, outMimeType := none } := by
  revert hfail
  unfold nativeDecodeRegion
  dsimp only [SkBitmapRegionDecoder.decodeRegion]
  split
  · intro hfail
    rfl
  · split
    · intro hfail
      rfl
    · split
      · intro hfail
        exact DecodeResult.noConfusion hfail
      · intro hfail
        exact DecodeResult.noConfusion hfail

/-- Witness for C10 at a concrete failing (cancelled) call. -/
theorem C10_options_reset_witness :
    (nativeDecodeRegion (fun _ _ _ _ => none) 0
        ⟨⟨"PNG", 1, 1, true, false, false⟩, 100, 100⟩ 0 0 10 10
        (some ⟨1, 5, 6, some 9, .kUnknown, true, false, none, true,
               true⟩)).optionsAfter =
      some { (⟨1, 5, 6, some 9, .kUnknown, true, false, none, true,
               true⟩ : Options) with
             outWidth := -1, outHeight := -1, outMimeType := none } :=
  C10_options_reset_observable_on_failure (fun _ _ _ _ => none) 0
    ⟨⟨"PNG", 1, 1, true, false, false⟩, 100, 100⟩ 0 0 10 10
    ⟨1, 5, 6, some 9, .kUnknown, true, false, none, true, true⟩
    "gOptions_mCancelID" (by decide)
